import Mathlib

/-
Verification of the HTTP caching-correctness core of the content-delivery
API: a shallow embedding of app/utils/caching.py, app/utils/security.py,
app/models/asset.py and app/routes/assets.py, with theorems about the
conditional-request evaluator, the cache-directive policy, the ETag
generator, the token validator and the version/publish protocol.

Modelling conventions:
  * bytes are `Nat` values (each < 256 where it matters), byte strings are
    `List Nat`;
  * the metadata store (SQLAlchemy session + database) is an explicit `St`
    record of asset / version / token rows; a commit is a single functional
    state update, and the unique constraints declared on the columns are
    checked at commit time;
  * bulk object storage and its failure modes are an environment
    `StorageEnv` (read gives `Option` bytes, a write succeeds or not);
  * `uuid.uuid4()` is a fresh-id supply (`St.nextId`): the property the code
    relies on is only that distinct draws are distinct;
  * wall-clock timestamps (`created_at` / `updated_at`) and the
    Last-Modified header rendering are outside every claim and are omitted;
  * each content-fetch route also returns the list of storage locators it
    read, so temporal "storage is only touched on a miss" statements become
    statements about that trace.
-/

/-! ## app/utils/caching.py -/

/-- Python's `s.strip('"')`: remove every leading and every trailing
double-quote character. -/
def stripQuotes (s : String) : String :=
  ⟨((s.data.dropWhile (fun c => c == '"')).reverse.dropWhile
      (fun c => c == '"')).reverse⟩

/-- `generate_cache_control_header` from app/utils/caching.py, with the
source's default arguments `max_age=60`, `s_maxage=3600`. -/
def generate_cache_control_header (is_public : Bool) (is_immutable : Bool := false)
    (max_age : Nat := 60) (s_maxage : Nat := 3600) : String :=
  if is_public then
    if is_immutable then
      "public, max-age=31536000, immutable"
    else
      "public, s-maxage=" ++ toString s_maxage ++ ", max-age=" ++ toString max_age
  else
    "private, no-store, no-cache, must-revalidate"

/-- `should_return_304` from app/utils/caching.py.  `none` models Python
`None`; `if not client_etag` is true for `None` and for the empty string. -/
def should_return_304 (client_etag : Option String) (server_etag : String) : Bool :=
  match client_etag with
  | none => false
  | some c =>
    if c == "" then false
    else c == server_etag || stripQuotes c == stripQuotes server_etag

/-- The conditional-request evaluator exactly as the claim words it: a tag
matches after stripping at most a SINGLE layer of surrounding double-quotes
(one leading and one trailing quote, each removed independently when
present).  Stated from the spec's words, to be compared with the source's
`should_return_304`. -/
def stripOneQuoteLayer (s : String) : String :=
  let l := if s.data.head? = some '"' then s.data.drop 1 else s.data
  ⟨if l.getLast? = some '"' then l.dropLast else l⟩

/-- The claim's version of the evaluator (single-layer quote stripping). -/
def shouldReturnNotModifiedSpec (client_etag : Option String)
    (server_etag : String) : Bool :=
  match client_etag with
  | none => false
  | some c =>
    if c == "" then false
    else c == server_etag ||
      stripOneQuoteLayer c == stripOneQuoteLayer server_etag

/-! ## app/utils/security.py — `generate_etag` (SHA-256 over the bytes)

`hashlib.sha256(content).hexdigest()` is embedded as SHA-256 (FIPS 180-4)
over a list of bytes, with 32-bit words as `Nat` reduced mod 2^32. -/

/-- Reduce to a 32-bit word. -/
def w32 (n : Nat) : Nat := n % 4294967296

/-- 32-bit right rotation (for `x < 2^32`, `n ≤ 32`). -/
def rotr32 (x n : Nat) : Nat := w32 ((x >>> n) ||| (x <<< (32 - n)))

/-- Big-endian digits of `n` in base `b`, exactly `w` digits wide. -/
def natToBeDigits : Nat → Nat → Nat → List Nat
  | 0, _, _ => []
  | w + 1, b, n => natToBeDigits w b (n / b) ++ [n % b]

/-- SHA-256 round constants. -/
def shaK : List Nat :=
  [1116352408, 1899447441, 3049323471, 3921009573,
   961987163, 1508970993, 2453635748, 2870763221,
   3624381080, 310598401, 607225278, 1426881987,
   1925078388, 2162078206, 2614888103, 3248222580,
   3835390401, 4022224774, 264347078, 604807628,
   770255983, 1249150122, 1555081692, 1996064986,
   2554220882, 2821834349, 2952996808, 3210313671,
   3336571891, 3584528711, 113926993, 338241895,
   666307205, 773529912, 1294757372, 1396182291,
   1695183700, 1986661051, 2177026350, 2456956037,
   2730485921, 2820302411, 3259730800, 3345764771,
   3516065817, 3600352804, 4094571909, 275423344,
   430227734, 506948616, 659060556, 883997877,
   958139571, 1322822218, 1537002063, 1747873779,
   1955562222, 2024104815, 2227730452, 2361852424,
   2428436474, 2756734187, 3204031479, 3329325298]

/-- SHA-256 initial hash value. -/
def shaH0 : List Nat :=
  [1779033703, 3144134277, 1013904242, 2773480762,
   1359893119, 2600822924, 528734635, 1541459225]

def shaBigS0 (x : Nat) : Nat := rotr32 x 2 ^^^ rotr32 x 13 ^^^ rotr32 x 22

def shaBigS1 (x : Nat) : Nat := rotr32 x 6 ^^^ rotr32 x 11 ^^^ rotr32 x 25

def shaSmallS0 (x : Nat) : Nat := rotr32 x 7 ^^^ rotr32 x 18 ^^^ (x >>> 3)

def shaSmallS1 (x : Nat) : Nat := rotr32 x 17 ^^^ rotr32 x 19 ^^^ (x >>> 10)

def shaCh (x y z : Nat) : Nat := (x &&& y) ^^^ ((x ^^^ 4294967295) &&& z)

def shaMaj (x y z : Nat) : Nat := (x &&& y) ^^^ (x &&& z) ^^^ (y &&& z)

/-- SHA-256 padding: `0x80`, zeros to 56 mod 64, 8-byte big-endian bit
length. -/
def padMessage (msg : List Nat) : List Nat :=
  msg ++ [128] ++ List.replicate ((119 - msg.length % 64) % 64) 0 ++
    natToBeDigits 8 256 (msg.length * 8)

/-- The sixteen big-endian 32-bit words of a 64-byte chunk. -/
def chunkWords (chunk : List Nat) : List Nat :=
  (List.range 16).map (fun j =>
    ((chunk.drop (4 * j)).take 4).foldl (fun acc b => acc * 256 + b) 0)

/-- Extend sixteen schedule words to sixty-four. -/
def extendWords (ws : List Nat) : List Nat :=
  (List.range 48).foldl (fun w _ =>
    w ++ [w32 (shaSmallS1 (w.getD (w.length - 2) 0) + w.getD (w.length - 7) 0 +
      shaSmallS0 (w.getD (w.length - 15) 0) + w.getD (w.length - 16) 0)]) ws

/-- One compression round; the state is the eight words `[a,b,c,d,e,f,g,h]`
and `kw` the round constant paired with the schedule word. -/
def shaRound (st : List Nat) (kw : Nat × Nat) : List Nat :=
  let a := st.getD 0 0
  let b := st.getD 1 0
  let c := st.getD 2 0
  let d := st.getD 3 0
  let e := st.getD 4 0
  let f := st.getD 5 0
  let g := st.getD 6 0
  let h := st.getD 7 0
  let t1 := w32 (h + shaBigS1 e + shaCh e f g + kw.1 + kw.2)
  let t2 := w32 (shaBigS0 a + shaMaj a b c)
  [w32 (t1 + t2), a, b, c, w32 (d + t1), e, f, g]

/-- Compress one 64-byte chunk into the running eight-word hash state. -/
def shaCompress (hs : List Nat) (chunk : List Nat) : List Nat :=
  let st := ((shaK.zip (extendWords (chunkWords chunk))).foldl shaRound hs)
  [w32 (hs.getD 0 0 + st.getD 0 0), w32 (hs.getD 1 0 + st.getD 1 0),
   w32 (hs.getD 2 0 + st.getD 2 0), w32 (hs.getD 3 0 + st.getD 3 0),
   w32 (hs.getD 4 0 + st.getD 4 0), w32 (hs.getD 5 0 + st.getD 5 0),
   w32 (hs.getD 6 0 + st.getD 6 0), w32 (hs.getD 7 0 + st.getD 7 0)]

/-- SHA-256 digest of a byte list, as eight 32-bit words. -/
def sha256 (msg : List Nat) : List Nat :=
  let padded := padMessage msg
  ((List.range (padded.length / 64)).map
    (fun i => (padded.drop (64 * i)).take 64)).foldl shaCompress shaH0

/-- The sixteen lowercase hexadecimal digit characters. -/
def hexChars : List Char := "0123456789abcdef".data

def hexDigit (n : Nat) : Char := hexChars.getD n '0'

/-- A 32-bit word as eight lowercase hex characters, big-endian. -/
def wordToHex (n : Nat) : List Char := (natToBeDigits 8 16 n).map hexDigit

/-- `hashlib.sha256(content).hexdigest()`: the digest as a 64-character
lowercase hex string. -/
def sha256hex (msg : List Nat) : String :=
  ⟨((sha256 msg).map wordToHex).flatten⟩

/-- `generate_etag` from app/utils/security.py: the SHA-256 hex digest of
the content, wrapped in double quotes. -/
def generate_etag (content : List Nat) : String :=
  "\"" ++ sha256hex content ++ "\""

/-- Is this character a lowercase hexadecimal digit? -/
def isLowerHex (c : Char) : Bool := hexChars.contains c

/-! ## app/models/asset.py — the Asset Directory rows

Timestamp columns and the Last-Modified rendering are outside every claim
and are omitted; ids are drawn from the fresh-id supply `St.nextId`. -/

/-- A row of the `assets` table. -/
structure Asset where
  id : Nat
  filename : String
  mime_type : String
  size : Nat
  etag : String
  object_key : String
  version : Nat
  is_public : Bool
  deriving DecidableEq

/-- A row of the `asset_versions` table. -/
structure AssetVersion where
  id : Nat
  asset_id : Nat
  version_number : Nat
  object_key : String
  etag : String
  deriving DecidableEq

/-- A row of the `access_tokens` table. -/
structure AccessToken where
  id : Nat
  token : String
  asset_id : Nat
  expires_at : Nat
  is_revoked : Bool
  deriving DecidableEq

/-- `AccessToken.is_valid`: not revoked and the current time is strictly
before the expiry. -/
def AccessToken.is_valid (t : AccessToken) (now : Nat) : Bool :=
  !t.is_revoked && decide (now < t.expires_at)

/-- The metadata store: the three tables plus the fresh-id supply standing
in for `uuid.uuid4()`. -/
structure St where
  assets : List Asset
  versions : List AssetVersion
  tokens : List AccessToken
  nextId : Nat
  deriving DecidableEq

/-- Bulk object storage as seen by one request: `get` returns the bytes at
a locator or `none` on any retrieval failure; `putOk` tells whether a write
at a locator confirms success. -/
structure StorageEnv where
  get : String → Option (List Nat)
  putOk : String → Bool

/-- `CDN_ENDPOINT` (app/config.py default). -/
def CDN_ENDPOINT : String := "http://localhost:8000"

/-! ## app/routes/assets.py -/

/-- An HTTP outcome: a raised `HTTPException (status, detail)` or a
`Response` with status, body bytes and headers. -/
inductive FetchResult where
  | httpError (status : Nat) (detail : String)
  | response (status : Nat) (body : List Nat) (headers : List (String × String))
  deriving DecidableEq

def statusOf : FetchResult → Nat
  | .httpError s _ => s
  | .response s _ _ => s

def bodyOf : FetchResult → List Nat
  | .httpError _ _ => []
  | .response _ b _ => b

/-- `PublishResponse` (app/schemas). -/
structure PublishResponse where
  version_id : Nat
  version_number : Nat
  etag : String
  url : String
  deriving DecidableEq

/-- What one `publish_version` call produces: the metadata store after the
call, the HTTP outcome, and the URLs passed to `cdn_service.purge_cache`. -/
structure PubOut where
  st : St
  res : Except (Nat × String) PublishResponse
  purged : List String

/-- `upload_asset`: reject empty content, compute the ETag, write the bytes
under a fresh object key, then commit the new row — the commit enforces the
unique constraints declared on `Asset.etag` and `Asset.object_key`
(app/models/asset.py line 15), so a duplicate raises an integrity error and
commits nothing. -/
def upload_asset (env : StorageEnv) (s : St) (filename mime : String)
    (content : List Nat) (is_public : Bool) : St × Except (Nat × String) Asset :=
  if content = [] then (s, .error (400, "File is empty"))
  else
    let etag := generate_etag content
    let object_key := "assets/" ++ toString s.nextId ++ "/" ++ filename
    if env.putOk object_key then
      let asset : Asset :=
        { id := s.nextId + 1, filename := filename, mime_type := mime,
          size := content.length, etag := etag, object_key := object_key,
          version := 1, is_public := is_public }
      if s.assets.any (fun a => a.etag == etag || a.object_key == object_key) then
        (s, .error (500, "IntegrityError: duplicate key value violates unique constraint"))
      else
        ({ s with assets := s.assets ++ [asset], nextId := s.nextId + 2 }, .ok asset)
    else (s, .error (500, "Failed to upload file to storage"))

/-- `download_asset` (GET `/assets/{asset_id}/download`): lookup, the
conditional-request check, then — only on a miss — the storage read.  The
second component is the trace of storage locators read. -/
def download_asset (env : StorageEnv) (s : St) (asset_id : Nat)
    (if_none_match : Option String) : FetchResult × List String :=
  match s.assets.find? (fun a => a.id == asset_id) with
  | none => (.httpError 404 "Asset not found", [])
  | some asset =>
    if should_return_304 if_none_match asset.etag then
      (.response 304 []
        [("ETag", asset.etag),
         ("Cache-Control", generate_cache_control_header asset.is_public)], [])
    else
      match env.get asset.object_key with
      | none => (.httpError 500 "Failed to retrieve file", [asset.object_key])
      | some content =>
        (.response 200 content
          [("Content-Type", asset.mime_type),
           ("ETag", asset.etag),
           ("Cache-Control", generate_cache_control_header asset.is_public),
           ("Content-Disposition", "attachment; filename=" ++ asset.filename),
           ("X-Content-Type-Options", "nosniff")], [asset.object_key])

/-- `publish_version` (POST `/assets/{asset_id}/publish`): lookup, read the
current bytes, write them under the versioned key, then commit the new
`AssetVersion` row together with the version-counter increment, and finally
ask the CDN to purge `CDN_ENDPOINT ++ "/assets/public/" ++ version id`. -/
def publish_version (env : StorageEnv) (s : St) (asset_id : Nat) : PubOut :=
  match s.assets.find? (fun a => a.id == asset_id) with
  | none => ⟨s, .error (404, "Asset not found"), []⟩
  | some asset =>
    match env.get asset.object_key with
    | none => ⟨s, .error (500, "Failed to retrieve file for versioning"), []⟩
    | some _content =>
      let version_key := "versions/" ++ toString asset.id ++ "/v" ++
        toString asset.version ++ "/" ++ asset.filename
      if env.putOk version_key then
        let asset_version : AssetVersion :=
          { id := s.nextId, asset_id := asset.id,
            version_number := asset.version, object_key := version_key,
            etag := asset.etag }
        let url := CDN_ENDPOINT ++ "/assets/public/" ++ toString asset_version.id
        ⟨{ s with
            assets := s.assets.map (fun a =>
              if a.id == asset_id then { a with version := a.version + 1 } else a),
            versions := s.versions ++ [asset_version],
            nextId := s.nextId + 1 },
         .ok { version_id := asset_version.id,
               version_number := asset_version.version_number,
               etag := asset_version.etag, url := url },
         [url]⟩
      else ⟨s, .error (500, "Failed to create version"), []⟩

/-- `get_public_version` (GET `/public/{version_id}`): always the immutable
directive; conditional check before the storage read. -/
def get_public_version (env : StorageEnv) (s : St) (version_id : Nat)
    (if_none_match : Option String) : FetchResult × List String :=
  match s.versions.find? (fun v => v.id == version_id) with
  | none => (.httpError 404 "Version not found", [])
  | some version =>
    if should_return_304 if_none_match version.etag then
      (.response 304 []
        [("ETag", version.etag),
         ("Cache-Control", "public, max-age=31536000, immutable")], [])
    else
      match env.get version.object_key with
      | none => (.httpError 500 "Failed to retrieve file", [version.object_key])
      | some content =>
        match s.assets.find? (fun a => a.id == version.asset_id) with
        | none =>
          -- unreachable when the foreign key from versions to assets holds
          (.httpError 500 "referential integrity violated", [version.object_key])
        | some asset =>
          (.response 200 content
            [("Content-Type", asset.mime_type),
             ("ETag", version.etag),
             ("Cache-Control", "public, max-age=31536000, immutable"),
             ("Content-Disposition", "attachment; filename=" ++ asset.filename),
             ("X-Content-Type-Options", "nosniff"),
             ("X-Version-Number", toString version.version_number)],
           [version.object_key])

/-- The token gate of `get_private_asset` (app/routes/assets.py lines
230-233): look the token up by exact string, keep it only if
`is_valid`. -/
def validate_access_token (s : St) (tok : String) (now : Nat) : Option AccessToken :=
  match s.tokens.find? (fun r => r.token == tok) with
  | none => none
  | some r => if r.is_valid now then some r else none

/-- `get_private_asset` (GET `/private/{token}`): the token gate, then the
scoped asset, the conditional check, and — only on a miss — the storage
read. -/
def get_private_asset (env : StorageEnv) (s : St) (tok : String)
    (if_none_match : Option String) (now : Nat) : FetchResult × List String :=
  match validate_access_token s tok now with
  | none => (.httpError 403 "Invalid or expired token", [])
  | some r =>
    match s.assets.find? (fun a => a.id == r.asset_id) with
    | none =>
      -- unreachable when the foreign key from tokens to assets holds
      (.httpError 500 "referential integrity violated", [])
    | some asset =>
      if should_return_304 if_none_match asset.etag then
        (.response 304 []
          [("ETag", asset.etag),
           ("Cache-Control", "private, no-store, no-cache, must-revalidate")], [])
      else
        match env.get asset.object_key with
        | none => (.httpError 500 "Failed to retrieve file", [asset.object_key])
        | some content =>
          (.response 200 content
            [("Content-Type", asset.mime_type),
             ("ETag", asset.etag),
             ("Cache-Control", "private, no-store, no-cache, must-revalidate"),
             ("Content-Disposition", "attachment; filename=" ++ asset.filename),
             ("X-Content-Type-Options", "nosniff")], [asset.object_key])

/-- Flip the `is_public` flag of one asset, leaving everything else of the
state unchanged: the second of C6's pair of states. -/
def flipPublic (s : St) (asset_id : Nat) : St :=
  { s with assets := s.assets.map (fun a =>
      if a.id == asset_id then { a with is_public := !a.is_public } else a) }

/-! ## Concrete fixtures used by witnesses and counterexamples -/

/-- Storage that answers every read with the bytes `[104, 105]` and
confirms every write. -/
def envOk : StorageEnv := ⟨fun _ => some [104, 105], fun _ => true⟩

/-- A private asset at version 1. -/
def assetWit : Asset :=
  ⟨1, "report.pdf", "application/pdf", 2, "\"e1\"", "assets/0/report.pdf", 1, false⟩

/-- A live token for `assetWit`, expiring at time 100. -/
def tokWit : AccessToken := ⟨5, "tok-abc", 1, 100, false⟩

/-- A directory holding `assetWit` and `tokWit`. -/
def stWit : St := ⟨[assetWit], [], [tokWit], 10⟩

/-- The bytes `"hi"`. -/
def bytesWit : List Nat := [104, 105]

/-- An asset whose stored validator is exactly `generate_etag bytesWit`. -/
def assetDup : Asset :=
  ⟨21, "b.bin", "application/octet-stream", 2, generate_etag bytesWit,
   "assets/20/b.bin", 1, true⟩

/-- A directory already holding `assetDup`. -/
def stDup : St := ⟨[assetDup], [], [], 30⟩

/-- A public asset already published once: its counter is 2 and the
version row of the first publish (id 100) exists; the next fresh id is
101. -/
def assetPub : Asset :=
  ⟨1, "logo.png", "image/png", 2, "\"e2\"", "assets/0/logo.png", 2, true⟩

/-- The version row created by the first publish of `assetPub`: its public
URL ends in `/100` and is the reference edge caches may already hold. -/
def verOld : AssetVersion := ⟨100, 1, 1, "versions/1/v1/logo.png", "\"e2\""⟩

/-- The directory before the second publish of `assetPub`. -/
def stPub : St := ⟨[assetPub], [verOld], [], 101⟩

/-! ## Theorems: C1 and C4 -/

/-- C1 (counterexample): for client validator `""x""` (two layers of
quotes) and server validator `x`, the source's `should_return_304` answers
true (Python `strip('"')` removes every layer), while the claim — matching
after stripping a single layer — requires false. -/
theorem strip_removes_all_quote_layers_cex :
    should_return_304 (some "\"\"x\"\"") "x" = true ∧
    shouldReturnNotModifiedSpec (some "\"\"x\"\"") "x" = false := by
  decide

/-- C1 (amended): `should_return_304` returns false when the client
validator is absent or empty, and otherwise returns true exactly when the
two validators are byte-identical or become identical after stripping ALL
leading and trailing double-quote characters from each side
independently. -/
theorem should_return_304_spec (s : String) :
    should_return_304 none s = false ∧
    should_return_304 (some "") s = false ∧
    ∀ c : String, (should_return_304 (some c) s = true ↔
      (c ≠ "" ∧ (c = s ∨ stripQuotes c = stripQuotes s))) := by
  refine ⟨rfl, rfl, fun c => ?_⟩
  simp only [should_return_304]
  by_cases hc : c = ""
  · subst hc; simp
  · simp [hc]

/-- C4: the cache-directive policy is total in the two booleans, with
exactly the three claimed outcomes: public immutable content gets the
one-year immutable directive for every value of the age parameters; public
mutable content gets the `s-maxage`/`max-age` template over the shared and
client ages, instantiated with the defaults 3600 and 60; non-public content
gets the private no-store directive regardless of the immutability flag and
of the age parameters. -/
theorem cache_control_total_three_outcomes (imm : Bool) (ma sma : Nat) :
    generate_cache_control_header true true ma sma
        = "public, max-age=31536000, immutable" ∧
    generate_cache_control_header true false ma sma
        = "public, s-maxage=" ++ toString sma ++ ", max-age=" ++ toString ma ∧
    generate_cache_control_header true false
        = "public, s-maxage=3600, max-age=60" ∧
    generate_cache_control_header false imm ma sma
        = "private, no-store, no-cache, must-revalidate" := by
  refine ⟨rfl, rfl, rfl, ?_⟩
  cases imm <;> rfl

/-! ## Lemmas and theorem: C9 -/

theorem natToBeDigits_length (w b n : Nat) : (natToBeDigits w b n).length = w := by
  induction w generalizing n with
  | zero => rfl
  | succ w ih => simp [natToBeDigits, ih]

theorem natToBeDigits_lt (w n : Nat) : ∀ d ∈ natToBeDigits w 16 n, d < 16 := by
  induction w generalizing n with
  | zero => simp [natToBeDigits]
  | succ w ih =>
    intro d hd
    simp only [natToBeDigits, List.mem_append, List.mem_singleton] at hd
    rcases hd with h | h
    · exact ih _ _ h
    · subst h
      exact Nat.mod_lt _ (by norm_num)

theorem hexDigit_lowerHex (d : Nat) (hd : d < 16) : isLowerHex (hexDigit d) = true := by
  interval_cases d <;> rfl

theorem wordToHex_length (n : Nat) : (wordToHex n).length = 8 := by
  simp [wordToHex, natToBeDigits_length]

theorem wordToHex_all_lowerHex (n : Nat) : (wordToHex n).all isLowerHex = true := by
  rw [List.all_eq_true]
  intro c hc
  simp only [wordToHex, List.mem_map] at hc
  obtain ⟨d, hd, rfl⟩ := hc
  exact hexDigit_lowerHex d (natToBeDigits_lt 8 n d hd)

theorem shaCompress_length (hs chunk : List Nat) : (shaCompress hs chunk).length = 8 :=
  rfl

theorem foldl_shaCompress_length (l : List (List Nat)) (hs : List Nat)
    (h : hs.length = 8) : (l.foldl shaCompress hs).length = 8 := by
  induction l generalizing hs with
  | nil => simpa using h
  | cons c cs ih => exact ih _ (shaCompress_length hs c)

theorem sha256_length (msg : List Nat) : (sha256 msg).length = 8 :=
  foldl_shaCompress_length _ _ rfl

theorem flatten_wordToHex_length (l : List Nat) :
    ((l.map wordToHex).flatten).length = 8 * l.length := by
  induction l with
  | nil => rfl
  | cons hd tl ih =>
    simp only [List.map_cons, List.flatten_cons, List.length_append,
      wordToHex_length, ih, List.length_cons]
    omega

theorem flatten_wordToHex_all (l : List Nat) :
    ((l.map wordToHex).flatten).all isLowerHex = true := by
  induction l with
  | nil => rfl
  | cons hd tl ih =>
    simp only [List.map_cons, List.flatten_cons, List.all_append,
      wordToHex_all_lowerHex, ih, Bool.and_self]

/-- C9: `generate_etag` is a pure deterministic function of the byte
sequence: two calls on the same bytes agree; the output is the SHA-256
digest of the exact bytes rendered as a fixed-length (64-character)
lowercase hexadecimal string wrapped in double quotes. -/
theorem generate_etag_deterministic_shape (B : List Nat) :
    generate_etag B = generate_etag B ∧
    (generate_etag B).data = '"' :: ((sha256hex B).data ++ ['"']) ∧
    (sha256hex B).data.length = 64 ∧
    (sha256hex B).data.all isLowerHex = true := by
  refine ⟨rfl, ?_, ?_, ?_⟩
  · show (("\"" ++ sha256hex B) ++ "\"").data = _
    rw [String.data_append, String.data_append]
    rfl
  · show (((sha256 B).map wordToHex).flatten).length = 64
    rw [flatten_wordToHex_length, sha256_length]
  · exact flatten_wordToHex_all _

/-! ## Lemmas on directory lookups -/

/-- Updating the one asset whose id matches (by a function that keeps the
id) commutes with looking an id up. -/
theorem find?_map_of_id (f : Asset → Asset) (hid : ∀ x, (f x).id = x.id)
    (l : List Asset) (aid : Nat) :
    (l.map (fun x => if x.id == aid then f x else x)).find? (fun x => x.id == aid)
      = (l.find? (fun x => x.id == aid)).map f := by
  induction l with
  | nil => rfl
  | cons hd tl ih =>
    simp only [List.map_cons]
    by_cases h : (hd.id == aid) = true
    · have h' : ((f hd).id == aid) = true := by rw [hid]; exact h
      rw [if_pos h, List.find?_cons_of_pos (p := fun (x : Asset) => x.id == aid) _ h',
        List.find?_cons_of_pos (p := fun (x : Asset) => x.id == aid) _ h]
      rfl
    · rw [if_neg h, List.find?_cons_of_neg (p := fun (x : Asset) => x.id == aid) _ h,
        List.find?_cons_of_neg (p := fun (x : Asset) => x.id == aid) _ h, ih]

/-! ## Theorem: C3 -/

/-- C3: each publish call is all-or-nothing up through the metadata commit.
Every failing outcome (asset missing, current bytes unreadable, immutable
storage write refused) leaves the metadata store exactly as it was — no
`AssetVersion` row, no counter change; a successful outcome commits the new
`AssetVersion` row and the version-counter increment together, in one state
update. -/
theorem publish_version_atomic (env : StorageEnv) (s : St) (aid : Nat) :
    (∀ e, (publish_version env s aid).res = .error e →
      (publish_version env s aid).st = s) ∧
    (∀ p, (publish_version env s aid).res = .ok p →
      ∃ a, s.assets.find? (fun x => x.id == aid) = some a ∧
        (publish_version env s aid).st =
          { s with
              assets := s.assets.map (fun x =>
                if x.id == aid then { x with version := x.version + 1 } else x),
              versions := s.versions ++
                [{ id := s.nextId, asset_id := a.id, version_number := a.version,
                   object_key := "versions/" ++ toString a.id ++ "/v" ++
                     toString a.version ++ "/" ++ a.filename,
                   etag := a.etag }],
              nextId := s.nextId + 1 }) := by
  cases hfind : s.assets.find? (fun x => x.id == aid) with
  | none =>
    refine ⟨fun e _ => ?_, fun p hp => ?_⟩
    · simp [publish_version, hfind]
    · simp [publish_version, hfind] at hp
  | some a =>
    cases hget : env.get a.object_key with
    | none =>
      refine ⟨fun e _ => ?_, fun p hp => ?_⟩
      · simp [publish_version, hfind, hget]
      · simp [publish_version, hfind, hget] at hp
    | some content =>
      by_cases hput : env.putOk ("versions/" ++ toString a.id ++ "/v" ++
          toString a.version ++ "/" ++ a.filename) = true
      · refine ⟨fun e he => ?_, fun p hp => ⟨a, rfl, ?_⟩⟩
        · simp [publish_version, hfind, hget, hput] at he
        · simp [publish_version, hfind, hget, hput]
      · refine ⟨fun e _ => ?_, fun p hp => ?_⟩
        · simp [publish_version, hfind, hget, hput]
        · simp [publish_version, hfind, hget, hput] at hp

/-! ## Theorem: C2 -/

/-- The success equation of one publish call: when the asset is found, its
bytes are readable and the versioned write confirms, the call returns the
bumped directory, the new version row, and purges the new version URL. -/
theorem publish_version_ok (env : StorageEnv) (s : St) (aid : Nat) (a : Asset)
    (content : List Nat)
    (ha : s.assets.find? (fun x => x.id == aid) = some a)
    (hget : env.get a.object_key = some content)
    (hput : env.putOk ("versions/" ++ toString a.id ++ "/v" ++
      toString a.version ++ "/" ++ a.filename) = true) :
    publish_version env s aid =
      ⟨{ s with
          assets := s.assets.map (fun x =>
            if x.id == aid then { x with version := x.version + 1 } else x),
          versions := s.versions ++
            [⟨s.nextId, a.id, a.version,
              "versions/" ++ toString a.id ++ "/v" ++ toString a.version ++
                "/" ++ a.filename, a.etag⟩],
          nextId := s.nextId + 1 },
       .ok ⟨s.nextId, a.version, a.etag,
         CDN_ENDPOINT ++ "/assets/public/" ++ toString s.nextId⟩,
       [CDN_ENDPOINT ++ "/assets/public/" ++ toString s.nextId]⟩ := by
  simp only [publish_version, ha, hget, hput, if_true]

/-- C2: for an asset starting at version 1 (with its bytes readable and
the immutable writes confirmed), the first publish creates an
`AssetVersion` with `version_number = 1` and leaves the asset at
version 2; the second publish creates an `AssetVersion` with
`version_number = 2`; the two version ids differ; and each created row's
validator equals the asset's validator at the time of that call. -/
theorem publish_version_monotonic (env : StorageEnv) (s : St) (aid : Nat)
    (a : Asset) (content : List Nat)
    (ha : s.assets.find? (fun x => x.id == aid) = some a)
    (hv : a.version = 1)
    (hget : env.get a.object_key = some content)
    (hput : ∀ k, env.putOk k = true) :
    ∃ o1 p1 p2 v1 v2,
      publish_version env s aid = o1 ∧
      o1.res = .ok p1 ∧
      (publish_version env o1.st aid).res = .ok p2 ∧
      p1.version_number = 1 ∧ p2.version_number = 2 ∧
      p1.version_id ≠ p2.version_id ∧
      (∃ a1, o1.st.assets.find? (fun x => x.id == aid) = some a1 ∧
        a1.version = 2 ∧ a1.etag = a.etag) ∧
      o1.st.versions = s.versions ++ [v1] ∧
      v1.version_number = 1 ∧ v1.etag = a.etag ∧ v1.id = p1.version_id ∧
      (publish_version env o1.st aid).st.versions = s.versions ++ [v1, v2] ∧
      v2.version_number = 2 ∧ v2.etag = a.etag ∧ v2.id = p2.version_id := by
  have h1 := publish_version_ok env s aid a content ha hget (hput _)
  have hfind1 : ((publish_version env s aid).st.assets).find?
      (fun x => x.id == aid) = some { a with version := a.version + 1 } := by
    rw [h1]
    show (s.assets.map (fun x =>
      if x.id == aid then { x with version := x.version + 1 } else x)).find?
        (fun x => x.id == aid) = _
    rw [find?_map_of_id (fun x => ({ x with version := x.version + 1 } : Asset))
      (fun _ => rfl), ha]
    rfl
  have h2 := publish_version_ok env (publish_version env s aid).st aid
    { a with version := a.version + 1 } content hfind1 hget (hput _)
  refine ⟨publish_version env s aid,
    ⟨s.nextId, a.version, a.etag,
      CDN_ENDPOINT ++ "/assets/public/" ++ toString s.nextId⟩,
    ⟨(publish_version env s aid).st.nextId, a.version + 1, a.etag,
      CDN_ENDPOINT ++ "/assets/public/" ++
        toString (publish_version env s aid).st.nextId⟩,
    ⟨s.nextId, a.id, a.version,
      "versions/" ++ toString a.id ++ "/v" ++ toString a.version ++ "/" ++
        a.filename, a.etag⟩,
    ⟨(publish_version env s aid).st.nextId, a.id, a.version + 1,
      "versions/" ++ toString a.id ++ "/v" ++ toString (a.version + 1) ++
        "/" ++ a.filename, a.etag⟩,
    rfl, ?_, ?_, hv, ?_, ?_, ?_, ?_, hv, rfl, rfl, ?_, ?_, rfl, rfl⟩
  · rw [h1]
  · rw [h2]
  · rw [hv]
  · rw [h1]
    show s.nextId ≠ s.nextId + 1
    omega
  · exact ⟨{ a with version := a.version + 1 }, hfind1, by rw [hv], rfl⟩
  · rw [h1]
  · rw [h2, h1]
    show (s.versions ++ [_]) ++ [_] = s.versions ++ _
    rw [List.append_assoc]
    rfl
  · rw [hv]

/-- Witness for C2 at a concrete directory: `stWit` holds `assetWit` (id 1,
version 1), storage `envOk` serves its bytes and confirms writes. -/
theorem publish_version_monotonic_witness :
    ∃ o1 p1 p2 v1 v2,
      publish_version envOk stWit 1 = o1 ∧
      o1.res = .ok p1 ∧
      (publish_version envOk o1.st 1).res = .ok p2 ∧
      p1.version_number = 1 ∧ p2.version_number = 2 ∧
      p1.version_id ≠ p2.version_id ∧
      (∃ a1, o1.st.assets.find? (fun x => x.id == 1) = some a1 ∧
        a1.version = 2 ∧ a1.etag = assetWit.etag) ∧
      o1.st.versions = stWit.versions ++ [v1] ∧
      v1.version_number = 1 ∧ v1.etag = assetWit.etag ∧ v1.id = p1.version_id ∧
      (publish_version envOk o1.st 1).st.versions = stWit.versions ++ [v1, v2] ∧
      v2.version_number = 2 ∧ v2.etag = assetWit.etag ∧ v2.id = p2.version_id :=
  publish_version_monotonic envOk stWit 1 assetWit [104, 105] rfl rfl rfl
    (fun _ => rfl)

/-! ## Theorems: C5 -/

/-- In a token table with pairwise-distinct token strings (the declared
unique constraint on `AccessToken.token`), two rows with the same token
string are the same row. -/
theorem token_strings_inj (l : List AccessToken)
    (hu : l.Pairwise (fun r1 r2 => r1.token ≠ r2.token)) :
    ∀ r1 ∈ l, ∀ r2 ∈ l, r1.token = r2.token → r1 = r2 := by
  induction hu with
  | nil => simp
  | cons hhd _htl ih =>
    intro r1 h1 r2 h2 heq
    rcases List.mem_cons.mp h1 with e1 | h1' <;>
      rcases List.mem_cons.mp h2 with e2 | h2'
    · rw [e1, e2]
    · subst e1; exact absurd heq (hhd r2 h2')
    · subst e2; exact absurd heq.symm (hhd r1 h1')
    · exact ih r1 h1' r2 h2' heq

/-- C5: with the unique constraint on the token column, the token gate
accepts exactly when a row with exactly the supplied token string exists
that is not revoked and whose expiry is strictly in the future; whenever it
accepts, the accepted row is that row and the route does not produce the
forbidden outcome; and whenever it rejects — lookup miss, revoked, or
expired alike — the route answers with the single undifferentiated
403 "Invalid or expired token" outcome. -/
theorem token_validation_gate (env : StorageEnv) (s : St) (tok : String)
    (inm : Option String) (now : Nat)
    (hu : s.tokens.Pairwise (fun r1 r2 => r1.token ≠ r2.token)) :
    (∀ r, validate_access_token s tok now = some r →
      r ∈ s.tokens ∧ r.token = tok ∧ r.is_revoked = false ∧
        now < r.expires_at ∧
        (get_private_asset env s tok inm now).1 ≠
          .httpError 403 "Invalid or expired token") ∧
    ((∃ r ∈ s.tokens, r.token = tok ∧ r.is_revoked = false ∧
        now < r.expires_at) →
      ∃ r, validate_access_token s tok now = some r) ∧
    (validate_access_token s tok now = none →
      (get_private_asset env s tok inm now).1 =
        .httpError 403 "Invalid or expired token") := by
  refine ⟨?_, ?_, ?_⟩
  · intro r hr
    have hr' := hr
    unfold validate_access_token at hr'
    cases hf : s.tokens.find? (fun x => x.token == tok) with
    | none => simp [hf] at hr'
    | some r0 =>
      simp only [hf] at hr'
      by_cases hval : r0.is_valid now = true
      · rw [if_pos hval] at hr'
        have hrr : r0 = r := by injection hr'
        subst hrr
        have hmem := List.mem_of_find?_eq_some hf
        have htok : r0.token = tok := by simpa using List.find?_some hf
        have hv2 : r0.is_revoked = false ∧ now < r0.expires_at := by
          unfold AccessToken.is_valid at hval
          simp only [Bool.and_eq_true, Bool.not_eq_true',
            decide_eq_true_eq] at hval
          exact hval
        refine ⟨hmem, htok, hv2.1, hv2.2, ?_⟩
        unfold get_private_asset
        simp only [hr]
        cases hfa : s.assets.find? (fun a => a.id == r0.asset_id) with
        | none => simp
        | some asset =>
          by_cases h304 : should_return_304 inm asset.etag = true
          · simp [h304]
          · cases hg : env.get asset.object_key with
            | none => simp [h304, hg]
            | some content => simp [h304, hg]
      · rw [if_neg hval] at hr'
        exact absurd hr' (by simp)
  · rintro ⟨r, hmem, htok, hrev, hexp⟩
    have hsome : (s.tokens.find? (fun x => x.token == tok)).isSome := by
      rw [List.find?_isSome]
      exact ⟨r, hmem, by simp [htok]⟩
    obtain ⟨r0, hr0⟩ := Option.isSome_iff_exists.mp hsome
    have hmem0 := List.mem_of_find?_eq_some hr0
    have htok0 : r0.token = tok := by simpa using List.find?_some hr0
    have hrr : r0 = r := token_strings_inj s.tokens hu r0 hmem0 r hmem
      (htok0.trans htok.symm)
    subst hrr
    refine ⟨r0, ?_⟩
    unfold validate_access_token
    simp only [hr0, if_pos]
    rw [if_pos ?_]
    unfold AccessToken.is_valid
    simp [hrev, hexp]
  · intro hnone
    unfold get_private_asset
    simp only [hnone]

/-- Witness for C5: in `stWit` the live row `tokWit` (token "tok-abc",
unrevoked, expiry 100) makes the gate accept at time 5. -/
theorem token_validation_gate_witness :
    ∃ r, validate_access_token stWit "tok-abc" 5 = some r :=
  (token_validation_gate envOk stWit "tok-abc" none 5 (by simp [stWit])).2.1
    ⟨tokWit, by simp [stWit], rfl, rfl, by norm_num [tokWit]⟩

/-! ## Theorems: C6 -/

/-- Flipping the `is_public` flag of the requested asset changes neither
the status nor the body of the by-id download — only headers (the
directive) can differ. -/
theorem download_asset_flip (env : StorageEnv) (s : St) (aid : Nat)
    (inm : Option String) :
    statusOf (download_asset env (flipPublic s aid) aid inm).1
      = statusOf (download_asset env s aid inm).1 ∧
    bodyOf (download_asset env (flipPublic s aid) aid inm).1
      = bodyOf (download_asset env s aid inm).1 := by
  have hf : (flipPublic s aid).assets.find? (fun x => x.id == aid)
      = (s.assets.find? (fun x => x.id == aid)).map
          (fun x => { x with is_public := !x.is_public }) :=
    find?_map_of_id (fun x => ({ x with is_public := !x.is_public } : Asset))
      (fun _ => rfl) s.assets aid
  unfold download_asset
  rw [hf]
  cases hfind : s.assets.find? (fun x => x.id == aid) with
  | none => simp
  | some a =>
    simp only [Option.map_some']
    by_cases h304 : should_return_304 inm a.etag = true
    · simp [h304, statusOf, bodyOf]
    · cases hget : env.get a.object_key with
      | none => simp [h304, hget, statusOf, bodyOf]
      | some content => simp [h304, hget, statusOf, bodyOf]

/-- C6: a stored private asset (`is_public = false`) is served in full by
the direct by-id download, no access token being involved anywhere in the
operation; and the status and body of the by-id download are identical
between two directories that differ only in that asset's `is_public`
flag — the token gate exists only on the dedicated token-fetch path. -/
theorem private_by_id_download_ungated (env : StorageEnv) (s : St) (aid : Nat)
    (inm : Option String) (a : Asset) (content : List Nat)
    (ha : s.assets.find? (fun x => x.id == aid) = some a)
    (hpriv : a.is_public = false)
    (hget : env.get a.object_key = some content)
    (hnm : should_return_304 inm a.etag = false) :
    (download_asset env s aid inm).1 = .response 200 content
      [("Content-Type", a.mime_type), ("ETag", a.etag),
       ("Cache-Control", "private, no-store, no-cache, must-revalidate"),
       ("Content-Disposition", "attachment; filename=" ++ a.filename),
       ("X-Content-Type-Options", "nosniff")] ∧
    (∀ inm', statusOf (download_asset env (flipPublic s aid) aid inm').1
        = statusOf (download_asset env s aid inm').1 ∧
      bodyOf (download_asset env (flipPublic s aid) aid inm').1
        = bodyOf (download_asset env s aid inm').1) := by
  refine ⟨?_, fun inm' => download_asset_flip env s aid inm'⟩
  unfold download_asset
  simp [ha, hnm, hget, generate_cache_control_header, hpriv]

/-- Witness for C6 at the concrete directory `stWit`, whose asset
`assetWit` is private. -/
theorem private_by_id_download_ungated_witness :
    (download_asset envOk stWit 1 none).1 = .response 200 [104, 105]
      [("Content-Type", assetWit.mime_type), ("ETag", assetWit.etag),
       ("Cache-Control", "private, no-store, no-cache, must-revalidate"),
       ("Content-Disposition", "attachment; filename=" ++ assetWit.filename),
       ("X-Content-Type-Options", "nosniff")] ∧
    (∀ inm', statusOf (download_asset envOk (flipPublic stWit 1) 1 inm').1
        = statusOf (download_asset envOk stWit 1 inm').1 ∧
      bodyOf (download_asset envOk (flipPublic stWit 1) 1 inm').1
        = bodyOf (download_asset envOk stWit 1 inm').1) :=
  private_by_id_download_ungated envOk stWit 1 none assetWit [104, 105]
    rfl rfl rfl rfl

/-! ## Theorem: C7 -/

/-- C7: on each of the three content-fetch paths — mutable by-id download,
public immutable version fetch, private token-gated fetch — the
conditional-request evaluator runs before any bulk-storage read: whenever
it answers true for the served record's validator, the call's storage-read
trace is empty; and conversely a non-empty trace means the evaluator
answered false for that record (storage is only touched on a miss). -/
theorem conditional_check_before_storage_read (env : StorageEnv) (s : St)
    (inm : Option String) (now : Nat) :
    (∀ aid a, s.assets.find? (fun x => x.id == aid) = some a →
      should_return_304 inm a.etag = true →
      (download_asset env s aid inm).2 = []) ∧
    (∀ aid, (download_asset env s aid inm).2 ≠ [] →
      ∃ a, s.assets.find? (fun x => x.id == aid) = some a ∧
        should_return_304 inm a.etag = false) ∧
    (∀ vid v, s.versions.find? (fun x => x.id == vid) = some v →
      should_return_304 inm v.etag = true →
      (get_public_version env s vid inm).2 = []) ∧
    (∀ vid, (get_public_version env s vid inm).2 ≠ [] →
      ∃ v, s.versions.find? (fun x => x.id == vid) = some v ∧
        should_return_304 inm v.etag = false) ∧
    (∀ tok r a, validate_access_token s tok now = some r →
      s.assets.find? (fun x => x.id == r.asset_id) = some a →
      should_return_304 inm a.etag = true →
      (get_private_asset env s tok inm now).2 = []) ∧
    (∀ tok, (get_private_asset env s tok inm now).2 ≠ [] →
      ∃ r a, validate_access_token s tok now = some r ∧
        s.assets.find? (fun x => x.id == r.asset_id) = some a ∧
        should_return_304 inm a.etag = false) := by
  refine ⟨?_, ?_, ?_, ?_, ?_, ?_⟩
  · intro aid a ha h304
    simp [download_asset, ha, h304]
  · intro aid hne
    cases hfind : s.assets.find? (fun x => x.id == aid) with
    | none => exact absurd (by simp [download_asset, hfind]) hne
    | some a =>
      by_cases h304 : should_return_304 inm a.etag = true
      · exact absurd (by simp [download_asset, hfind, h304]) hne
      · exact ⟨a, rfl, by simpa using h304⟩
  · intro vid v hv h304
    simp [get_public_version, hv, h304]
  · intro vid hne
    cases hfind : s.versions.find? (fun x => x.id == vid) with
    | none => exact absurd (by simp [get_public_version, hfind]) hne
    | some v =>
      by_cases h304 : should_return_304 inm v.etag = true
      · exact absurd (by simp [get_public_version, hfind, h304]) hne
      · exact ⟨v, rfl, by simpa using h304⟩
  · intro tok r a hvt hfa h304
    simp [get_private_asset, hvt, hfa, h304]
  · intro tok hne
    cases hvt : validate_access_token s tok now with
    | none => exact absurd (by simp [get_private_asset, hvt]) hne
    | some r =>
      cases hfa : s.assets.find? (fun x => x.id == r.asset_id) with
      | none => exact absurd (by simp [get_private_asset, hvt, hfa]) hne
      | some a =>
        by_cases h304 : should_return_304 inm a.etag = true
        · exact absurd (by simp [get_private_asset, hvt, hfa, h304]) hne
        · exact ⟨r, a, rfl, hfa, by simpa using h304⟩

/-! ## Theorem: C8 -/

/-- C8 (evaluating the code at the failing input): publishing `assetPub` —
already published once, so edge caches can hold the URL ending in `/100` of
the superseded version row `verOld` — makes the code ask the edge-purge
notifier for exactly the URL of the AssetVersion created by this very
call (the fresh id 101, which no cache can have seen), and not for the
previously cached, superseded reference. -/
theorem publish_purges_only_new_version_url :
    (publish_version envOk stPub 1).purged
        = [CDN_ENDPOINT ++ "/assets/public/101"] ∧
    (publish_version envOk stPub 1).res =
      .ok ⟨101, 2, "\"e2\"", CDN_ENDPOINT ++ "/assets/public/101"⟩ ∧
    (CDN_ENDPOINT ++ "/assets/public/" ++ toString verOld.id) ∉
      (publish_version envOk stPub 1).purged ∧
    (∀ v ∈ stPub.versions, v.id ≠ 101) := by
  refine ⟨by decide, rfl, by decide, by decide⟩

/-! ## Theorems: C10 -/

/-- C10: the unique constraint declared on the `etag` column of the asset
directory blocks a second upload of byte-identical content: when some
stored asset already carries `generate_etag content`, the upload fails at
the metadata commit with an integrity error and the directory is unchanged
— no second asset row appears; and a successful upload keeps the etag
column pairwise-distinct. -/
theorem asset_etag_unique_blocks_duplicate_upload (env : StorageEnv) (s : St)
    (fn mt : String) (content : List Nat) (pub : Bool)
    (hdup : ∃ a ∈ s.assets, a.etag = generate_etag content)
    (hne : content ≠ [])
    (hput : ∀ k, env.putOk k = true) :
    (upload_asset env s fn mt content pub).2 =
      .error (500, "IntegrityError: duplicate key value violates unique constraint") ∧
    (upload_asset env s fn mt content pub).1 = s ∧
    (∀ (env' : StorageEnv) (s' : St) (fn' mt' : String) (c' : List Nat)
        (pub' : Bool) (a' : Asset),
      s'.assets.Pairwise (fun x y => x.etag ≠ y.etag) →
      (upload_asset env' s' fn' mt' c' pub').2 = .ok a' →
      (upload_asset env' s' fn' mt' c' pub').1.assets.Pairwise
        (fun x y => x.etag ≠ y.etag)) := by
  have hany : s.assets.any (fun a =>
      a.etag == generate_etag content ||
      a.object_key == ("assets/" ++ toString s.nextId ++ "/" ++ fn)) = true := by
    rw [List.any_eq_true]
    obtain ⟨a, hm, he⟩ := hdup
    exact ⟨a, hm, by simp [he]⟩
  refine ⟨?_, ?_, ?_⟩
  · simp [upload_asset, hne, hput, hany]
  · simp [upload_asset, hne, hput, hany]
  · intro env' s' fn' mt' c' pub' a' hp hok
    by_cases h0 : c' = []
    · simp [upload_asset, h0] at hok
    · by_cases hput' : env'.putOk ("assets/" ++ toString s'.nextId ++ "/" ++ fn') = true
      · by_cases hany' : s'.assets.any (fun a =>
            a.etag == generate_etag c' ||
            a.object_key == ("assets/" ++ toString s'.nextId ++ "/" ++ fn')) = true
        · simp [upload_asset, h0, hput', hany'] at hok
        · have hst : (upload_asset env' s' fn' mt' c' pub').1.assets
              = s'.assets ++ [⟨s'.nextId + 1, fn', mt', c'.length,
                  generate_etag c',
                  "assets/" ++ toString s'.nextId ++ "/" ++ fn', 1, pub'⟩] := by
            simp [upload_asset, h0, hput', hany']
          rw [hst, List.pairwise_append]
          refine ⟨hp, by simp, ?_⟩
          intro x hx y hy
          simp only [List.mem_singleton] at hy
          subst hy
          intro heq
          exact hany' (List.any_eq_true.mpr ⟨x, hx, by simp [heq]⟩)
      · simp [upload_asset, h0, hput'] at hok

/-- Witness for C10: `stDup` already stores `assetDup`, whose validator is
exactly `generate_etag bytesWit`; re-uploading `bytesWit` fails at the
commit and changes nothing. -/
theorem asset_etag_unique_witness :
    (upload_asset envOk stDup "c.bin" "t" bytesWit false).2 =
      .error (500, "IntegrityError: duplicate key value violates unique constraint") ∧
    (upload_asset envOk stDup "c.bin" "t" bytesWit false).1 = stDup ∧
    (∀ (env' : StorageEnv) (s' : St) (fn' mt' : String) (c' : List Nat)
        (pub' : Bool) (a' : Asset),
      s'.assets.Pairwise (fun x y => x.etag ≠ y.etag) →
      (upload_asset env' s' fn' mt' c' pub').2 = .ok a' →
      (upload_asset env' s' fn' mt' c' pub').1.assets.Pairwise
        (fun x y => x.etag ≠ y.etag)) :=
  asset_etag_unique_blocks_duplicate_upload envOk stDup "c.bin" "t" bytesWit
    false ⟨assetDup, by simp [stDup], rfl⟩ (by simp [bytesWit])
    (fun _ => rfl)
